import Mathlib

/-!
Shallow embedding of the darksky client (darksky.go) and verification of its
specification claims.

Modelling conventions:
* Go float32/float64 scalars are modelled as exact rationals; the spec's
  round-trip properties are stated "within floating tolerance", which the
  exact-rational model captures as exact equality.
* A Go json.RawMessage pointer field is modelled as an Option of the typed
  payload it is later parsed into: none is an absent key (or a JSON null key,
  which encoding/json also decodes to a nil pointer for settable pointer
  fields), some is a present well-formed payload.  An emitted none serialises
  as an omitted key (omitempty tags) or a null value (plain tags); the Go
  decoder treats both identically, so the model collapses them.
* context.Context carrying the "units/temperature" value is modelled as the
  Option String of that value.
* Go methods that mutate a freshly zero-initialised receiver are modelled as
  functions producing the resulting value; every call site in the package
  decodes into fresh zero values.
* time.Time fields are modelled as Option Int of Unix seconds: none is the
  zero time.Time (time.Unix never returns the zero time.Time, so the Go
  equality test against time.Time\x7b\x7d is exactly the none test).
-/

namespace Darksky

/-- Decidable equality for Except results, so concrete codec runs can be
checked by decide. -/
instance {ε α : Type} [DecidableEq ε] [DecidableEq α] :
    DecidableEq (Except ε α)
  | .error e, .error e' =>
    if h : e = e' then .isTrue (by rw [h]) else .isFalse (by simp [h])
  | .error _, .ok _ => .isFalse (by simp)
  | .ok _, .error _ => .isFalse (by simp)
  | .ok a, .ok a' =>
    if h : a = a' then .isTrue (by rw [h]) else .isFalse (by simp [h])

/-- Temperature stores a scalar canonically in Kelvin
(Go: type Temperature float64). -/
structure Temperature where
  val : ℚ
deriving DecidableEq

/-- FromFahrenheit creates a temperature from a fahrenheit scalar
(Go: FromFahrenheit). -/
def FromFahrenheit (temp : ℚ) : Temperature :=
  ⟨(temp - 32) * 5 / 9 + 273.15⟩

/-- FromCelsuis creates a temperature from a celsius scalar
(Go: FromCelsuis, spelling kept from the source). -/
def FromCelsuis (temp : ℚ) : Temperature :=
  ⟨temp + 273.15⟩

/-- Celsius converts the kelvin-stored temperature to celsius. -/
def Temperature.Celsius (t : Temperature) : ℚ :=
  t.val - 273.15

/-- Fahrenheit converts the kelvin-stored temperature to fahrenheit. -/
def Temperature.Fahrenheit (t : Temperature) : ℚ :=
  (t.val - 273.15) * 9 / 5 + 32

/-- Context-free decode of a temperature scalar (Go: Temperature.UnmarshalJSON):
the raw scalar is stored as Celsius. -/
def Temperature.unmarshalJSON (raw : ℚ) : Temperature :=
  FromCelsuis raw

/-- Context-free encode of a temperature (Go: Temperature.MarshalJSON):
emits the Fahrenheit conversion. -/
def Temperature.marshalJSON (t : Temperature) : ℚ :=
  t.Fahrenheit

/-- The unit-token prologue shared by the context-aware temperature codec
functions (Go lines 221-227 and 253-259): a missing context value or an empty
string resolves to "kelvin". -/
def resolveUnit : Option String → String
  | none => "kelvin"
  | some s => if s = "" then "kelvin" else s

/-- Context-aware decode of a temperature scalar
(Go: Temperature.UnmarshalJSONWithContext). -/
def Temperature.unmarshalJSONWithContext (units : Option String) (raw : ℚ) :
    Except String Temperature :=
  let u := resolveUnit units
  if u = "celsius" then .ok (FromCelsuis raw)
  else if u = "kelvin" then .ok ⟨raw⟩
  else if u = "fahrenheit" then .ok (FromFahrenheit raw)
  else .error ("unknown temperature unit: " ++ u)

/-- Context-aware encode of a temperature
(Go: Temperature.MarshalJSONWithContext).  The kelvin branch narrows to
float32 in the source; numeric scalars are modelled exactly. -/
def Temperature.marshalJSONWithContext (units : Option String) (t : Temperature) :
    Except String ℚ :=
  let u := resolveUnit units
  if u = "kelvin" then .ok t.val
  else if u = "celsius" then .ok t.Celsius
  else if u = "fahrenheit" then .ok t.Fahrenheit
  else .error ("unknown temperature unit: " ++ u)

/-- Flags give additional metadata from Darksky. -/
structure Flags where
  sources : List String
  nearestStation : ℚ
  units : String
deriving DecidableEq

/-- Data holds one weather observation record (Go: Data). -/
structure Data where
  time : Option Int
  summary : String
  icon : String
  nearestStormDistance : ℚ
  precipIntensity : ℚ
  precipProbability : ℚ
  precipType : String
  temperature : Temperature
  apparentTemperature : Temperature
  temperatureLow : Temperature
  temperatureHighTime : Option Int
  temperatureHigh : Temperature
  temperatureLowTime : Option Int
  dewPoint : Temperature
  humidity : ℚ
  pressure : ℚ
  windSpeed : ℚ
  windGust : ℚ
  windBearing : ℚ
  cloudCover : ℚ
  uvIndex : ℚ
  visibility : ℚ
  ozone : ℚ
deriving DecidableEq

/-- The Go zero value of Data (fresh receiver before decoding). -/
def Data.zero : Data where
  time := none
  summary := ""
  icon := ""
  nearestStormDistance := 0
  precipIntensity := 0
  precipProbability := 0
  precipType := ""
  temperature := ⟨0⟩
  apparentTemperature := ⟨0⟩
  temperatureLow := ⟨0⟩
  temperatureHighTime := none
  temperatureHigh := ⟨0⟩
  temperatureLowTime := none
  dewPoint := ⟨0⟩
  humidity := 0
  pressure := 0
  windSpeed := 0
  windGust := 0
  windBearing := 0
  cloudCover := 0
  uvIndex := 0
  visibility := 0
  ozone := 0

/-- tempData is the staged raw form of Data: context-dependent fields are kept
as undecoded wire fragments (Go: tempData, with json.RawMessage fields). -/
structure TempData where
  time : Option Int
  summary : String
  icon : String
  nearestStormDistance : ℚ
  precipIntensity : ℚ
  precipProbability : ℚ
  precipType : String
  temperature : Option ℚ
  apparentTemperature : Option ℚ
  temperatureLow : Option ℚ
  temperatureHighTime : Option Int
  temperatureHigh : Option ℚ
  temperatureLowTime : Option Int
  dewPoint : Option ℚ
  humidity : ℚ
  pressure : ℚ
  windSpeed : ℚ
  windGust : ℚ
  windBearing : ℚ
  cloudCover : ℚ
  uvIndex : ℚ
  visibility : ℚ
  ozone : ℚ
deriving DecidableEq

/-- The all-absent / zero wire record. -/
def TempData.zero : TempData where
  time := none
  summary := ""
  icon := ""
  nearestStormDistance := 0
  precipIntensity := 0
  precipProbability := 0
  precipType := ""
  temperature := none
  apparentTemperature := none
  temperatureLow := none
  temperatureHighTime := none
  temperatureHigh := none
  temperatureLowTime := none
  dewPoint := none
  humidity := 0
  pressure := 0
  windSpeed := 0
  windGust := 0
  windBearing := 0
  cloudCover := 0
  uvIndex := 0
  visibility := 0
  ozone := 0

/-- One deferred temperature field of the staged decode: an absent fragment
leaves the receiver's zero value in place, a present fragment is decoded with
the context (one arm of the repeated if/else blocks in
Data.UnmarshalJSONWithContext). -/
def decodeTempField (units : Option String) (o : Option ℚ) :
    Except String Temperature :=
  match o with
  | none => .ok ⟨0⟩
  | some raw => Temperature.unmarshalJSONWithContext units raw

/-- One temperature field of the staged encode: the zero value is the absence
sentinel and emits nothing, any other value is encoded with the context (one
arm of the repeated if/else blocks in Data.MarshalJSONWithContext). -/
def marshalTempField (units : Option String) (t : Temperature) :
    Except String (Option ℚ) :=
  if t = ⟨0⟩ then .ok none
  else
    match Temperature.marshalJSONWithContext units t with
    | .error e => .error e
    | .ok q => .ok (some q)

/-- Staged decode of an observation record
(Go: Data.UnmarshalJSONWithContext; temperature fields are resolved in source
order, the first failure aborts). -/
def Data.unmarshalJSONWithContext (units : Option String) (td : TempData) :
    Except String Data :=
  match decodeTempField units td.temperature with
  | .error e => .error e
  | .ok temperature =>
  match decodeTempField units td.apparentTemperature with
  | .error e => .error e
  | .ok apparentTemperature =>
  match decodeTempField units td.dewPoint with
  | .error e => .error e
  | .ok dewPoint =>
  match decodeTempField units td.temperatureLow with
  | .error e => .error e
  | .ok temperatureLow =>
  match decodeTempField units td.temperatureHigh with
  | .error e => .error e
  | .ok temperatureHigh =>
  .ok { time := td.time
        summary := td.summary
        icon := td.icon
        nearestStormDistance := td.nearestStormDistance
        precipIntensity := td.precipIntensity
        precipProbability := td.precipProbability
        precipType := td.precipType
        temperature := temperature
        apparentTemperature := apparentTemperature
        temperatureLow := temperatureLow
        temperatureHighTime := td.temperatureHighTime
        temperatureHigh := temperatureHigh
        temperatureLowTime := td.temperatureLowTime
        dewPoint := dewPoint
        humidity := td.humidity
        pressure := td.pressure
        windSpeed := td.windSpeed
        windGust := td.windGust
        windBearing := td.windBearing
        cloudCover := td.cloudCover
        uvIndex := td.uvIndex
        visibility := td.visibility
        ozone := td.ozone }

/-- Staged encode of an observation record
(Go: Data.MarshalJSONWithContext; temperature fields in source order,
first failure aborts). -/
def Data.marshalJSONWithContext (units : Option String) (d : Data) :
    Except String TempData :=
  match marshalTempField units d.temperature with
  | .error e => .error e
  | .ok temperature =>
  match marshalTempField units d.apparentTemperature with
  | .error e => .error e
  | .ok apparentTemperature =>
  match marshalTempField units d.dewPoint with
  | .error e => .error e
  | .ok dewPoint =>
  match marshalTempField units d.temperatureHigh with
  | .error e => .error e
  | .ok temperatureHigh =>
  match marshalTempField units d.temperatureLow with
  | .error e => .error e
  | .ok temperatureLow =>
  .ok { time := d.time
        summary := d.summary
        icon := d.icon
        nearestStormDistance := d.nearestStormDistance
        precipIntensity := d.precipIntensity
        precipProbability := d.precipProbability
        precipType := d.precipType
        temperature := temperature
        apparentTemperature := apparentTemperature
        temperatureLow := temperatureLow
        temperatureHighTime := d.temperatureHighTime
        temperatureHigh := temperatureHigh
        temperatureLowTime := d.temperatureLowTime
        dewPoint := dewPoint
        humidity := d.humidity
        pressure := d.pressure
        windSpeed := d.windSpeed
        windGust := d.windGust
        windBearing := d.windBearing
        cloudCover := d.cloudCover
        uvIndex := d.uvIndex
        visibility := d.visibility
        ozone := d.ozone }

/-- DataSummary wraps an array of Data elements with an icon and summary. -/
structure DataSummary where
  summary : String
  icon : String
  data : List Data
deriving DecidableEq

/-- The Go zero value of DataSummary. -/
def DataSummary.zero : DataSummary where
  summary := ""
  icon := ""
  data := []

/-- tempDataSummary is the staged raw form of DataSummary: the record array is
a list of deferred wire fragments, a none element being a JSON null (Go:
tempDataSummary, data field of type list of json.RawMessage pointers). -/
structure TempDataSummary where
  summary : String
  icon : String
  data : List (Option TempData)
deriving DecidableEq

/-- The decode loop over the staged record array (the for-loop in
DataSummary.UnmarshalJSONWithContext): a null element yields a fresh zero
record, a present element is decoded with the context; the first failure
aborts the whole decode. -/
def decodeDataList (units : Option String) :
    List (Option TempData) → Except String (List Data)
  | [] => .ok []
  | b :: rest =>
    match ((match b with
           | none => .ok Data.zero
           | some bb => Data.unmarshalJSONWithContext units bb) :
           Except String Data) with
    | .error e => .error e
    | .ok d =>
      match decodeDataList units rest with
      | .error e => .error e
      | .ok ds => .ok (d :: ds)

/-- The encode loop over the record array (the for-loop in
DataSummary.MarshalJSONWithContext): every element is encoded and appended
as a present fragment; the first failure aborts. -/
def encodeDataList (units : Option String) :
    List Data → Except String (List (Option TempData))
  | [] => .ok []
  | d :: rest =>
    match Data.marshalJSONWithContext units d with
    | .error e => .error e
    | .ok b =>
      match encodeDataList units rest with
      | .error e => .error e
      | .ok bs => .ok (some b :: bs)

/-- Staged decode of an observation group
(Go: DataSummary.UnmarshalJSONWithContext). -/
def DataSummary.unmarshalJSONWithContext (units : Option String)
    (td : TempDataSummary) : Except String DataSummary :=
  match decodeDataList units td.data with
  | .error e => .error e
  | .ok ds => .ok { summary := td.summary, icon := td.icon, data := ds }

/-- Staged encode of an observation group
(Go: DataSummary.MarshalJSONWithContext). -/
def DataSummary.marshalJSONWithContext (units : Option String)
    (ds : DataSummary) : Except String TempDataSummary :=
  match encodeDataList units ds.data with
  | .error e => .error e
  | .ok bs => .ok { summary := ds.summary, icon := ds.icon, data := bs }

/-- Response is the root level of the response from Darksky.  The four payload
slots are plain (non-optional) values, exactly as in the Go struct: an absent
slot leaves the Go zero value in place. -/
structure Response where
  latitude : ℚ
  longitude : ℚ
  timezone : String
  currently : Data
  minutely : DataSummary
  hourly : DataSummary
  daily : DataSummary
  flags : Flags
  offset : Int
deriving DecidableEq

/-- tempResponse is the staged raw form of Response: the four payload slots
are deferred wire fragments (Go: tempResponse). -/
structure TempResponse where
  latitude : ℚ
  longitude : ℚ
  timezone : String
  currently : Option TempData
  minutely : Option TempDataSummary
  hourly : Option TempDataSummary
  daily : Option TempDataSummary
  flags : Flags
  offset : Int
deriving DecidableEq

/-- The unit-context switch of the root decode (Go lines 121-126 inside
Response.UnmarshalJSON): selector "us" yields fahrenheit, anything else
yields celsius. -/
def unmarshalUnitsContext (units : String) : String :=
  if units = "us" then "fahrenheit" else "celsius"

/-- The unit-context switch of the root encode (Go lines 154-159 inside
Response.MarshalJSON), textually the same switch as the decode side. -/
def marshalUnitsContext (units : String) : String :=
  if units = "us" then "fahrenheit" else "celsius"

/-- Root document decode (Go: Response.UnmarshalJSON): copy the plain fields,
derive the unit context from flags.units once, then decode each present
payload slot with that context; an absent slot leaves the zero value. -/
def Response.unmarshalJSON (tr : TempResponse) : Except String Response :=
  let units := some (unmarshalUnitsContext tr.flags.units)
  match ((match tr.currently with
         | none => .ok Data.zero
         | some b => Data.unmarshalJSONWithContext units b) :
         Except String Data) with
  | .error e => .error e
  | .ok currently =>
  match ((match tr.minutely with
         | none => .ok DataSummary.zero
         | some b => DataSummary.unmarshalJSONWithContext units b) :
         Except String DataSummary) with
  | .error e => .error e
  | .ok minutely =>
  match ((match tr.hourly with
         | none => .ok DataSummary.zero
         | some b => DataSummary.unmarshalJSONWithContext units b) :
         Except String DataSummary) with
  | .error e => .error e
  | .ok hourly =>
  match ((match tr.daily with
         | none => .ok DataSummary.zero
         | some b => DataSummary.unmarshalJSONWithContext units b) :
         Except String DataSummary) with
  | .error e => .error e
  | .ok daily =>
  .ok { latitude := tr.latitude
        longitude := tr.longitude
        timezone := tr.timezone
        currently := currently
        minutely := minutely
        hourly := hourly
        daily := daily
        flags := tr.flags
        offset := tr.offset }

/-- Root document encode (Go: Response.MarshalJSON): derive the unit context
from the stored flags.units, encode all four payload slots unconditionally
(each becomes a present fragment), then emit the staged struct. -/
def Response.marshalJSON (r : Response) : Except String TempResponse :=
  let units := some (marshalUnitsContext r.flags.units)
  match Data.marshalJSONWithContext units r.currently with
  | .error e => .error e
  | .ok cb =>
  match DataSummary.marshalJSONWithContext units r.minutely with
  | .error e => .error e
  | .ok mb =>
  match DataSummary.marshalJSONWithContext units r.hourly with
  | .error e => .error e
  | .ok hb =>
  match DataSummary.marshalJSONWithContext units r.daily with
  | .error e => .error e
  | .ok db =>
  .ok { latitude := r.latitude
        longitude := r.longitude
        timezone := r.timezone
        currently := some cb
        minutely := some mb
        hourly := some hb
        daily := some db
        flags := r.flags
        offset := r.offset }

/-- The decision logic of Service.Get after the HTTP round trip (Go lines
57-65): a status whose class is not 2xx fails with the descriptive status
error before the body is read or parsed; otherwise the body is parsed as a
Response.  The body is modelled post-shape-parse: none stands for bytes that
are not a well-formed document shape. -/
def Service.Get (statusCode : Nat) (body : Option TempResponse) :
    Except String Response :=
  if statusCode / 100 ≠ 2 then
    .error ("invalid statuscode from darksky: " ++ toString statusCode)
  else
    match body with
    | none => .error "malformed response body"
    | some tr => Response.unmarshalJSON tr

/-! ### Helper lemmas about the temperature codec -/

/-- The resolved unit token belongs to the codec's known set. -/
def resolvedKnown (units : Option String) : Bool :=
  resolveUnit units == "kelvin" || resolveUnit units == "celsius" ||
    resolveUnit units == "fahrenheit"

theorem resolvedKnown_cases {units : Option String}
    (h : resolvedKnown units = true) :
    resolveUnit units = "kelvin" ∨ resolveUnit units = "celsius" ∨
      resolveUnit units = "fahrenheit" := by
  simpa [resolvedKnown, or_assoc] using h

theorem unmarshalWithContext_kelvin {units : Option String}
    (h : resolveUnit units = "kelvin") (raw : ℚ) :
    Temperature.unmarshalJSONWithContext units raw = .ok ⟨raw⟩ := by
  simp [Temperature.unmarshalJSONWithContext, h]

theorem unmarshalWithContext_celsius {units : Option String}
    (h : resolveUnit units = "celsius") (raw : ℚ) :
    Temperature.unmarshalJSONWithContext units raw = .ok (FromCelsuis raw) := by
  simp [Temperature.unmarshalJSONWithContext, h]

theorem unmarshalWithContext_fahrenheit {units : Option String}
    (h : resolveUnit units = "fahrenheit") (raw : ℚ) :
    Temperature.unmarshalJSONWithContext units raw = .ok (FromFahrenheit raw) := by
  simp [Temperature.unmarshalJSONWithContext, h]

/-- Under a known unit token the context-aware decode always succeeds. -/
theorem unmarshalWithContext_ok {units : Option String}
    (h : resolvedKnown units = true) (raw : ℚ) :
    ∃ t, Temperature.unmarshalJSONWithContext units raw = .ok t := by
  rcases resolvedKnown_cases h with hk | hk | hk
  · exact ⟨_, unmarshalWithContext_kelvin hk raw⟩
  · exact ⟨_, unmarshalWithContext_celsius hk raw⟩
  · exact ⟨_, unmarshalWithContext_fahrenheit hk raw⟩

/-- Under a known unit token, encoding a decoded temperature reproduces the
raw scalar exactly. -/
theorem marshal_unmarshal_id {units : Option String}
    (h : resolvedKnown units = true) {raw : ℚ} {t : Temperature}
    (hdec : Temperature.unmarshalJSONWithContext units raw = .ok t) :
    Temperature.marshalJSONWithContext units t = .ok raw := by
  rcases resolvedKnown_cases h with hk | hk | hk
  · rw [unmarshalWithContext_kelvin hk raw] at hdec
    cases hdec
    simp [Temperature.marshalJSONWithContext, hk]
  · rw [unmarshalWithContext_celsius hk raw] at hdec
    cases hdec
    simp [Temperature.marshalJSONWithContext, hk, FromCelsuis, Temperature.Celsius]
  · rw [unmarshalWithContext_fahrenheit hk raw] at hdec
    cases hdec
    have hr : ((raw - 32) * 5 / 9 + 273.15 - 273.15) * 9 / 5 + 32 = raw := by
      ring
    simp [Temperature.marshalJSONWithContext, hk, FromFahrenheit,
      Temperature.Fahrenheit, hr]

/-! ### C7: unit conversions are mutually inverse -/

/-- Claim C7: for every scalar v, converting to canonical Kelvin and back is
the identity: Fahrenheit of FromFahrenheit v is v and Celsius of FromCelsuis v
is v (conversions modelled as exact pure total functions). -/
theorem C7_conversions_inverse (v : ℚ) :
    (FromFahrenheit v).Fahrenheit = v ∧ (FromCelsuis v).Celsius = v := by
  constructor
  · simp only [FromFahrenheit, Temperature.Fahrenheit]
    ring
  · simp only [FromCelsuis, Temperature.Celsius]
    ring

/-! ### C10: the context-free decode/encode pair is inverse only at -40 -/

/-- Claim C10: the context-free encode emits Fahrenheit while the context-free
decode reads Celsius, so encode after decode is the identity exactly at the
scalar -40, the reading at which Celsius and Fahrenheit coincide. -/
theorem C10_contextfree_pair_not_inverse :
    (∀ t : Temperature, Temperature.marshalJSON t = t.Fahrenheit) ∧
    (∀ raw : ℚ, Temperature.unmarshalJSON raw = FromCelsuis raw) ∧
    (∀ raw : ℚ,
      Temperature.marshalJSON (Temperature.unmarshalJSON raw) = raw ↔ raw = -40) ∧
    FromCelsuis (-40) = FromFahrenheit (-40) := by
  refine ⟨fun _ => rfl, fun _ => rfl, fun raw => ?_, ?_⟩
  · simp only [Temperature.marshalJSON, Temperature.unmarshalJSON, FromCelsuis,
      Temperature.Fahrenheit]
    constructor
    · intro h
      linarith
    · intro h
      rw [h]
      norm_num
  · simp only [FromCelsuis, FromFahrenheit]
    norm_num

/-- Concrete instances of C10: the pair is the identity at -40 and fails to be
at 0. -/
theorem C10_contextfree_pair_not_inverse_witness :
    Temperature.marshalJSON (Temperature.unmarshalJSON (-40)) = -40 ∧
    ¬ Temperature.marshalJSON (Temperature.unmarshalJSON 0) = 0 := by
  constructor
  · exact (C10_contextfree_pair_not_inverse.2.2.1 (-40)).mpr rfl
  · intro h
    have h0 := (C10_contextfree_pair_not_inverse.2.2.1 0).mp h
    norm_num at h0

/-! ### C4: decode behaviour when no unit token is supplied -/

/-- Counterexample to claim C4: the context-aware decode reached with no unit
token in the context stores the raw scalar 22 unchanged (Kelvin identity), not
FromCelsuis 22. -/
theorem C4_counterexample :
    Temperature.unmarshalJSONWithContext none 22 = .ok ⟨22⟩ ∧
    Temperature.unmarshalJSONWithContext none 22 ≠ .ok (FromCelsuis 22) := by
  have h1 : Temperature.unmarshalJSONWithContext none 22 = .ok ⟨22⟩ := by
    simp [Temperature.unmarshalJSONWithContext, resolveUnit]
  refine ⟨h1, ?_⟩
  rw [h1]
  intro h
  rw [Except.ok.injEq, Temperature.mk.injEq, FromCelsuis] at h
  norm_num at h

/-- Claim C4 as amended: only the context-free decode path treats the raw
scalar as Celsius; the context-aware decode with a missing unit token (or an
empty token) falls back to Kelvin identity instead. -/
theorem C4_amended :
    (∀ raw : ℚ, Temperature.unmarshalJSON raw = FromCelsuis raw) ∧
    (∀ raw : ℚ, Temperature.unmarshalJSONWithContext none raw = .ok ⟨raw⟩) ∧
    (∀ raw : ℚ, Temperature.unmarshalJSONWithContext (some "") raw = .ok ⟨raw⟩) := by
  refine ⟨fun _ => rfl, fun raw => ?_, fun raw => ?_⟩
  · simp [Temperature.unmarshalJSONWithContext, resolveUnit]
  · simp [Temperature.unmarshalJSONWithContext, resolveUnit]

/-! ### C2: unknown unit tokens -/

/-- Metadata block with an unknown unit-system selector. -/
def xyzFlags : Flags where
  sources := []
  nearestStation := 0
  units := "xyz"

/-- A document whose unit-system selector is the unknown token "xyz" and whose
current observation carries temperature scalar 22. -/
def xyzDoc : TempResponse where
  latitude := 0
  longitude := 0
  timezone := ""
  currently := some { TempData.zero with temperature := some 22 }
  minutely := none
  hourly := none
  daily := none
  flags := xyzFlags
  offset := 0

/-- Counterexample to claim C2: the unknown selector "xyz" does not fail the
decode; it silently falls back to celsius, yielding FromCelsuis 22. -/
theorem C2_counterexample :
    Response.unmarshalJSON xyzDoc =
      .ok { latitude := 0, longitude := 0, timezone := ""
            currently := { Data.zero with temperature := FromCelsuis 22 }
            minutely := DataSummary.zero, hourly := DataSummary.zero
            daily := DataSummary.zero, flags := xyzFlags, offset := 0 } := by
  simp [Response.unmarshalJSON, xyzDoc, xyzFlags, unmarshalUnitsContext,
    Data.unmarshalJSONWithContext, decodeTempField, TempData.zero,
    Temperature.unmarshalJSONWithContext, resolveUnit, Data.zero,
    DataSummary.zero]

/-- Claim C2 as amended: only the temperature codec's own context rejects
unknown unit strings — both context-aware codec directions fail with the
distinct unrecognized-unit error; the document-level selector never fails and
any non-"us" value (such as "xyz") resolves to celsius. -/
theorem C2_amended (u : String) (raw : ℚ) (t : Temperature)
    (hne : u ≠ "" ∧ u ≠ "celsius" ∧ u ≠ "kelvin" ∧ u ≠ "fahrenheit") :
    Temperature.unmarshalJSONWithContext (some u) raw =
      .error ("unknown temperature unit: " ++ u) ∧
    Temperature.marshalJSONWithContext (some u) t =
      .error ("unknown temperature unit: " ++ u) := by
  obtain ⟨h0, hc, hk, hf⟩ := hne
  have hres : resolveUnit (some u) = u := by simp [resolveUnit, h0]
  constructor
  · simp [Temperature.unmarshalJSONWithContext, hres, hc, hk, hf]
  · simp [Temperature.marshalJSONWithContext, hres, hc, hk, hf]

/-- Concrete instance of amended C2 at the token "xyz". -/
theorem C2_amended_witness :
    Temperature.unmarshalJSONWithContext (some "xyz") 22 =
      .error ("unknown temperature unit: " ++ "xyz") ∧
    Temperature.marshalJSONWithContext (some "xyz") ⟨0⟩ =
      .error ("unknown temperature unit: " ++ "xyz") :=
  C2_amended "xyz" 22 ⟨0⟩ (by decide)

/-! ### C5: the unit context rule at the document root -/

/-- Claim C5: the unit context is derived from the metadata selector by one
rule — "us" resolves to fahrenheit and any other string resolves to celsius —
and the decode-side and encode-side derivations agree on every selector. -/
theorem C5_units_context_rule :
    (∀ s : String, unmarshalUnitsContext s = marshalUnitsContext s) ∧
    unmarshalUnitsContext "us" = "fahrenheit" ∧
    (∀ s : String, s ≠ "us" → unmarshalUnitsContext s = "celsius") := by
  refine ⟨fun s => rfl, rfl, fun s hs => ?_⟩
  simp [unmarshalUnitsContext, hs]

/-- Concrete instances of the C5 rule. -/
theorem C5_units_context_rule_witness :
    unmarshalUnitsContext "us" = "fahrenheit" ∧
    unmarshalUnitsContext "ca" = "celsius" ∧
    unmarshalUnitsContext "" = "celsius" ∧
    unmarshalUnitsContext "ca" = marshalUnitsContext "ca" :=
  ⟨C5_units_context_rule.2.1,
   C5_units_context_rule.2.2 "ca" (by decide),
   C5_units_context_rule.2.2 "" (by decide),
   C5_units_context_rule.1 "ca"⟩

/-! ### Helper lemmas for record-level encode/decode -/

/-- Under a known unit token the context-aware encode always succeeds. -/
theorem marshalWithContext_ok {units : Option String}
    (h : resolvedKnown units = true) (t : Temperature) :
    ∃ q, Temperature.marshalJSONWithContext units t = .ok q := by
  rcases resolvedKnown_cases h with hk | hk | hk
  · exact ⟨t.val, by simp [Temperature.marshalJSONWithContext, hk]⟩
  · exact ⟨t.Celsius, by simp [Temperature.marshalJSONWithContext, hk]⟩
  · exact ⟨t.Fahrenheit, by simp [Temperature.marshalJSONWithContext, hk]⟩

/-- Under a known unit token each encoded temperature field yields a fragment
that is absent exactly when the stored value is the zero sentinel. -/
theorem marshalTempField_spec {units : Option String}
    (h : resolvedKnown units = true) (t : Temperature) :
    ∃ o, marshalTempField units t = .ok o ∧ (o = none ↔ t = ⟨0⟩) := by
  by_cases hz : t = ⟨0⟩
  · refine ⟨none, ?_, by simp [hz]⟩
    simp [marshalTempField, hz]
  · obtain ⟨q, hq⟩ := marshalWithContext_ok h t
    refine ⟨some q, ?_, by simp [hz]⟩
    simp [marshalTempField, hz, hq]

/-- Under a known unit token each deferred temperature field decodes. -/
theorem decodeTempField_ok {units : Option String}
    (h : resolvedKnown units = true) (o : Option ℚ) :
    ∃ t, decodeTempField units o = .ok t := by
  cases o with
  | none => exact ⟨⟨0⟩, rfl⟩
  | some raw =>
    obtain ⟨t, ht⟩ := unmarshalWithContext_ok h raw
    exact ⟨t, by simpa [decodeTempField] using ht⟩

/-! ### C6: the zero-Kelvin absence sentinel on encode -/

/-- Claim C6: encoding an observation record under a known unit context
succeeds, and each of the five Temperature-valued fields is emitted exactly
when its canonical value differs from the zero sentinel. -/
theorem C6_zero_sentinel (units : Option String) (d : Data)
    (h : resolvedKnown units = true) :
    ∃ td, Data.marshalJSONWithContext units d = .ok td ∧
      (td.temperature = none ↔ d.temperature = ⟨0⟩) ∧
      (td.apparentTemperature = none ↔ d.apparentTemperature = ⟨0⟩) ∧
      (td.dewPoint = none ↔ d.dewPoint = ⟨0⟩) ∧
      (td.temperatureHigh = none ↔ d.temperatureHigh = ⟨0⟩) ∧
      (td.temperatureLow = none ↔ d.temperatureLow = ⟨0⟩) := by
  obtain ⟨o1, h1, s1⟩ := marshalTempField_spec h d.temperature
  obtain ⟨o2, h2, s2⟩ := marshalTempField_spec h d.apparentTemperature
  obtain ⟨o3, h3, s3⟩ := marshalTempField_spec h d.dewPoint
  obtain ⟨o4, h4, s4⟩ := marshalTempField_spec h d.temperatureHigh
  obtain ⟨o5, h5, s5⟩ := marshalTempField_spec h d.temperatureLow
  refine ⟨{ time := d.time
            summary := d.summary
            icon := d.icon
            nearestStormDistance := d.nearestStormDistance
            precipIntensity := d.precipIntensity
            precipProbability := d.precipProbability
            precipType := d.precipType
            temperature := o1
            apparentTemperature := o2
            temperatureLow := o5
            temperatureHighTime := d.temperatureHighTime
            temperatureHigh := o4
            temperatureLowTime := d.temperatureLowTime
            dewPoint := o3
            humidity := d.humidity
            pressure := d.pressure
            windSpeed := d.windSpeed
            windGust := d.windGust
            windBearing := d.windBearing
            cloudCover := d.cloudCover
            uvIndex := d.uvIndex
            visibility := d.visibility
            ozone := d.ozone }, ?_, s1, s2, s3, s4, s5⟩
  simp [Data.marshalJSONWithContext, h1, h2, h3, h4, h5]

/-- An observation record with one non-zero temperature. -/
def sampleData : Data :=
  { Data.zero with temperature := ⟨300⟩ }

/-- Concrete instance of C6 on sampleData under the celsius context. -/
theorem C6_zero_sentinel_witness :
    ∃ td, Data.marshalJSONWithContext (some "celsius") sampleData = .ok td ∧
      (td.temperature = none ↔ sampleData.temperature = ⟨0⟩) ∧
      (td.apparentTemperature = none ↔ sampleData.apparentTemperature = ⟨0⟩) ∧
      (td.dewPoint = none ↔ sampleData.dewPoint = ⟨0⟩) ∧
      (td.temperatureHigh = none ↔ sampleData.temperatureHigh = ⟨0⟩) ∧
      (td.temperatureLow = none ↔ sampleData.temperatureLow = ⟨0⟩) :=
  C6_zero_sentinel (some "celsius") sampleData (by decide)

/-! ### C9: non-2xx HTTP status -/

/-- The all-absent zero wire document. -/
def TempResponse.zero : TempResponse where
  latitude := 0
  longitude := 0
  timezone := ""
  currently := none
  minutely := none
  hourly := none
  daily := none
  flags := { sources := [], nearestStation := 0, units := "" }
  offset := 0

/-- Claim C9: a response whose status class is not 2xx fails with the
descriptive status error naming the code, and the outcome does not depend on
the response body, which is therefore never parsed. -/
theorem C9_bad_status (code : Nat) (b b' : Option TempResponse)
    (h : code / 100 ≠ 2) :
    Service.Get code b =
      .error ("invalid statuscode from darksky: " ++ toString code) ∧
    Service.Get code b = Service.Get code b' := by
  constructor <;> simp [Service.Get, h]

/-- Concrete instance of C9 at status 404 with two different bodies. -/
theorem C9_bad_status_witness :
    Service.Get 404 none =
      .error ("invalid statuscode from darksky: " ++ toString 404) ∧
    Service.Get 404 none = Service.Get 404 (some TempResponse.zero) :=
  C9_bad_status 404 none (some TempResponse.zero) (by decide)

/-! ### Helper lemmas for group-level decode -/

/-- Under a known unit token a whole observation record decodes. -/
theorem dataUnmarshal_ok {units : Option String}
    (h : resolvedKnown units = true) (td : TempData) :
    ∃ d, Data.unmarshalJSONWithContext units td = .ok d := by
  obtain ⟨t1, h1⟩ := decodeTempField_ok h td.temperature
  obtain ⟨t2, h2⟩ := decodeTempField_ok h td.apparentTemperature
  obtain ⟨t3, h3⟩ := decodeTempField_ok h td.dewPoint
  obtain ⟨t4, h4⟩ := decodeTempField_ok h td.temperatureLow
  obtain ⟨t5, h5⟩ := decodeTempField_ok h td.temperatureHigh
  refine ⟨{ time := td.time
            summary := td.summary
            icon := td.icon
            nearestStormDistance := td.nearestStormDistance
            precipIntensity := td.precipIntensity
            precipProbability := td.precipProbability
            precipType := td.precipType
            temperature := t1
            apparentTemperature := t2
            temperatureLow := t4
            temperatureHighTime := td.temperatureHighTime
            temperatureHigh := t5
            temperatureLowTime := td.temperatureLowTime
            dewPoint := t3
            humidity := td.humidity
            pressure := td.pressure
            windSpeed := td.windSpeed
            windGust := td.windGust
            windBearing := td.windBearing
            cloudCover := td.cloudCover
            uvIndex := td.uvIndex
            visibility := td.visibility
            ozone := td.ozone }, ?_⟩
  simp [Data.unmarshalJSONWithContext, h1, h2, h3, h4, h5]

/-- Under a known unit token the decode loop over a staged record array
succeeds, keeps the length and order, turns null elements into zero records
and decodes present elements in place. -/
theorem decodeDataList_ok {units : Option String}
    (h : resolvedKnown units = true) (l : List (Option TempData)) :
    ∃ ds, decodeDataList units l = .ok ds ∧ ds.length = l.length ∧
      ∀ i (hi : i < l.length) (hi' : i < ds.length),
        (l.get ⟨i, hi⟩ = none → ds.get ⟨i, hi'⟩ = Data.zero) ∧
        (∀ b, l.get ⟨i, hi⟩ = some b →
          Data.unmarshalJSONWithContext units b = .ok (ds.get ⟨i, hi'⟩)) := by
  induction l with
  | nil =>
    refine ⟨[], rfl, rfl, fun i hi hi' => absurd hi (by simp)⟩
  | cons b rest ih =>
    obtain ⟨ds, hds, hlen, hspec⟩ := ih
    have hel : ∃ d, ((match b with
        | none => .ok Data.zero
        | some bb => Data.unmarshalJSONWithContext units bb) :
        Except String Data) = .ok d ∧
        (b = none → d = Data.zero) ∧
        (∀ bb, b = some bb → Data.unmarshalJSONWithContext units bb = .ok d) := by
      cases b with
      | none =>
        exact ⟨Data.zero, rfl, fun _ => rfl, fun bb hbb => by simp at hbb⟩
      | some bb =>
        obtain ⟨d, hd⟩ := dataUnmarshal_ok h bb
        refine ⟨d, hd, fun hn => by simp at hn, fun bb' hbb' => ?_⟩
        obtain rfl : bb' = bb := by
          injection hbb' with h'
          exact h'.symm
        exact hd
    obtain ⟨d, hd, hdnone, hdsome⟩ := hel
    refine ⟨d :: ds, ?_, by simpa using hlen, ?_⟩
    · simp [decodeDataList, hd, hds]
    · intro i hi hi'
      cases i with
      | zero => simpa using ⟨hdnone, hdsome⟩
      | succ j =>
        have hj : j < rest.length := by simpa using hi
        have hj' : j < ds.length := by simpa using hi'
        simpa using hspec j hj hj'

/-! ### C8: null elements in a group's data array -/

/-- Claim C8: decoding an observation group under a known unit context always
succeeds; the record list keeps the wire array's length and order, null
elements decode to the zero-valued record, and each present element decodes
in place. -/
theorem C8_null_elements (units : Option String) (ts : TempDataSummary)
    (h : resolvedKnown units = true) :
    ∃ ds, DataSummary.unmarshalJSONWithContext units ts = .ok ds ∧
      ds.summary = ts.summary ∧ ds.icon = ts.icon ∧
      ds.data.length = ts.data.length ∧
      ∀ i (hi : i < ts.data.length) (hi' : i < ds.data.length),
        (ts.data.get ⟨i, hi⟩ = none → ds.data.get ⟨i, hi'⟩ = Data.zero) ∧
        (∀ b, ts.data.get ⟨i, hi⟩ = some b →
          Data.unmarshalJSONWithContext units b = .ok (ds.data.get ⟨i, hi'⟩)) := by
  obtain ⟨l, hl, hlen, hspec⟩ := decodeDataList_ok h ts.data
  exact ⟨{ summary := ts.summary, icon := ts.icon, data := l },
    by simp [DataSummary.unmarshalJSONWithContext, hl], rfl, rfl, hlen, hspec⟩

/-- A staged group whose data array holds a null element before a present
record. -/
def sampleSummary : TempDataSummary where
  summary := "s"
  icon := "i"
  data := [none, some { TempData.zero with temperature := some 10 }]

/-- Concrete instance of C8 on sampleSummary under the celsius context. -/
theorem C8_null_elements_witness :
    ∃ ds, DataSummary.unmarshalJSONWithContext (some "celsius") sampleSummary =
        .ok ds ∧
      ds.summary = sampleSummary.summary ∧ ds.icon = sampleSummary.icon ∧
      ds.data.length = sampleSummary.data.length ∧
      ∀ i (hi : i < sampleSummary.data.length) (hi' : i < ds.data.length),
        (sampleSummary.data.get ⟨i, hi⟩ = none →
          ds.data.get ⟨i, hi'⟩ = Data.zero) ∧
        (∀ b, sampleSummary.data.get ⟨i, hi⟩ = some b →
          Data.unmarshalJSONWithContext (some "celsius") b =
            .ok (ds.data.get ⟨i, hi'⟩)) :=
  C8_null_elements (some "celsius") sampleSummary (by decide)

/-! ### C3: absent payload slots -/

/-- The zero staged group. -/
def TempDataSummary.zero : TempDataSummary where
  summary := ""
  icon := ""
  data := []

/-- Encoding the zero record needs no context and yields the all-absent
fragment. -/
theorem marshal_zero_data (units : Option String) :
    Data.marshalJSONWithContext units Data.zero = .ok TempData.zero := by
  simp [Data.marshalJSONWithContext, marshalTempField, Data.zero, TempData.zero]

/-- Encoding the zero group yields the zero staged group. -/
theorem marshal_zero_summary (units : Option String) :
    DataSummary.marshalJSONWithContext units DataSummary.zero =
      .ok TempDataSummary.zero := by
  simp [DataSummary.marshalJSONWithContext, encodeDataList, DataSummary.zero,
    TempDataSummary.zero]

/-- Counterexample to claim C3: the all-absent document decodes with every
payload slot filled by a zero-valued record or group — there is no "slot not
present" result — and re-encoding emits all four slots again (minutely, absent
on the wire, comes back as a present zero group). -/
theorem C3_counterexample :
    TempResponse.zero.minutely = none ∧
    Response.unmarshalJSON TempResponse.zero =
      .ok { latitude := 0, longitude := 0, timezone := ""
            currently := Data.zero, minutely := DataSummary.zero
            hourly := DataSummary.zero, daily := DataSummary.zero
            flags := TempResponse.zero.flags, offset := 0 } ∧
    Response.marshalJSON
      { latitude := 0, longitude := 0, timezone := ""
        currently := Data.zero, minutely := DataSummary.zero
        hourly := DataSummary.zero, daily := DataSummary.zero
        flags := TempResponse.zero.flags, offset := 0 } =
      .ok { TempResponse.zero with
            currently := some TempData.zero
            minutely := some TempDataSummary.zero
            hourly := some TempDataSummary.zero
            daily := some TempDataSummary.zero } ∧
    some TempDataSummary.zero ≠ (none : Option TempDataSummary) := by
  refine ⟨rfl, ?_, ?_, by simp⟩
  · simp [Response.unmarshalJSON, TempResponse.zero]
  · simp [Response.marshalJSON, TempResponse.zero, marshal_zero_data,
      marshal_zero_summary]

/-! ### C1: round trip of temperature scalars under a fixed selector -/

/-- The five deferred temperature fragments of a staged record, in encode
order. -/
def TempData.tempRawScalars (td : TempData) : List (Option ℚ) :=
  [td.temperature, td.apparentTemperature, td.dewPoint,
   td.temperatureHigh, td.temperatureLow]

/-- The temperature fragments of an optional staged record: an absent record
carries five absent fragments. -/
def elemTempScalars : Option TempData → List (Option ℚ)
  | none => [none, none, none, none, none]
  | some td => td.tempRawScalars

/-- All temperature fragments of a staged group, in array order. -/
def TempDataSummary.tempScalars (ts : TempDataSummary) : List (Option ℚ) :=
  (ts.data.map elemTempScalars).flatten

/-- The temperature fragments of an optional group slot. -/
def slotTempScalars : Option TempDataSummary → List (Option ℚ)
  | none => []
  | some ts => ts.tempScalars

/-- Every temperature fragment of a staged document: the current observation
followed by the three group slots, in document order. -/
def docTempScalars (tr : TempResponse) : List (Option ℚ) :=
  elemTempScalars tr.currently ++ slotTempScalars tr.minutely ++
    slotTempScalars tr.hourly ++ slotTempScalars tr.daily

/-- A deferred temperature fragment whose decode is not the zero sentinel
re-encodes to itself. -/
theorem tempField_roundtrip {units : Option String}
    (h : resolvedKnown units = true) {o : Option ℚ} {t : Temperature}
    (hdec : decodeTempField units o = .ok t)
    (hnz : ∀ raw, o = some raw →
      Temperature.unmarshalJSONWithContext units raw ≠ .ok ⟨0⟩) :
    marshalTempField units t = .ok o := by
  cases o with
  | none =>
    simp only [decodeTempField, Except.ok.injEq] at hdec
    subst hdec
    simp [marshalTempField]
  | some raw =>
    simp only [decodeTempField] at hdec
    have ht : t ≠ ⟨0⟩ := fun hz => hnz raw rfl (hz ▸ hdec)
    have hm := marshal_unmarshal_id h hdec
    simp [marshalTempField, ht, hm]

/-- A staged record none of whose present temperature fragments decodes to
the zero sentinel decodes successfully and re-encodes to itself. -/
theorem data_roundtrip {units : Option String}
    (h : resolvedKnown units = true) (td : TempData)
    (hnz : ∀ o ∈ td.tempRawScalars, ∀ raw, o = some raw →
      Temperature.unmarshalJSONWithContext units raw ≠ .ok ⟨0⟩) :
    ∃ d, Data.unmarshalJSONWithContext units td = .ok d ∧
      Data.marshalJSONWithContext units d = .ok td := by
  obtain ⟨t1, h1⟩ := decodeTempField_ok h td.temperature
  obtain ⟨t2, h2⟩ := decodeTempField_ok h td.apparentTemperature
  obtain ⟨t3, h3⟩ := decodeTempField_ok h td.dewPoint
  obtain ⟨t4, h4⟩ := decodeTempField_ok h td.temperatureLow
  obtain ⟨t5, h5⟩ := decodeTempField_ok h td.temperatureHigh
  have m1 := tempField_roundtrip h h1
    (hnz td.temperature (by simp [TempData.tempRawScalars]))
  have m2 := tempField_roundtrip h h2
    (hnz td.apparentTemperature (by simp [TempData.tempRawScalars]))
  have m3 := tempField_roundtrip h h3
    (hnz td.dewPoint (by simp [TempData.tempRawScalars]))
  have m4 := tempField_roundtrip h h4
    (hnz td.temperatureLow (by simp [TempData.tempRawScalars]))
  have m5 := tempField_roundtrip h h5
    (hnz td.temperatureHigh (by simp [TempData.tempRawScalars]))
  refine ⟨{ time := td.time
            summary := td.summary
            icon := td.icon
            nearestStormDistance := td.nearestStormDistance
            precipIntensity := td.precipIntensity
            precipProbability := td.precipProbability
            precipType := td.precipType
            temperature := t1
            apparentTemperature := t2
            temperatureLow := t4
            temperatureHighTime := td.temperatureHighTime
            temperatureHigh := t5
            temperatureLowTime := td.temperatureLowTime
            dewPoint := t3
            humidity := td.humidity
            pressure := td.pressure
            windSpeed := td.windSpeed
            windGust := td.windGust
            windBearing := td.windBearing
            cloudCover := td.cloudCover
            uvIndex := td.uvIndex
            visibility := td.visibility
            ozone := td.ozone }, ?_, ?_⟩
  · simp [Data.unmarshalJSONWithContext, h1, h2, h3, h4, h5]
  · simp [Data.marshalJSONWithContext, m1, m2, m3, m4, m5]

/-- A record array none of whose present temperature fragments decodes to the
zero sentinel decodes and re-encodes with the same per-element temperature
fragments (a null element comes back as a present all-absent record, carrying
the same five absent fragments). -/
theorem dataList_roundtrip {units : Option String}
    (h : resolvedKnown units = true) (l : List (Option TempData))
    (hnz : ∀ b ∈ l, ∀ o ∈ elemTempScalars b, ∀ raw, o = some raw →
      Temperature.unmarshalJSONWithContext units raw ≠ .ok ⟨0⟩) :
    ∃ ds bs, decodeDataList units l = .ok ds ∧
      encodeDataList units ds = .ok bs ∧
      bs.map elemTempScalars = l.map elemTempScalars := by
  induction l with
  | nil => exact ⟨[], [], rfl, rfl, rfl⟩
  | cons b rest ih =>
    obtain ⟨ds, bs, hds, hbs, hmap⟩ :=
      ih (fun b' hb' => hnz b' (List.mem_cons_of_mem _ hb'))
    cases b with
    | none =>
      refine ⟨Data.zero :: ds, some TempData.zero :: bs, ?_, ?_, ?_⟩
      · simp [decodeDataList, hds]
      · simp [encodeDataList, marshal_zero_data units, hbs]
      · simp [elemTempScalars, TempData.zero, TempData.tempRawScalars, hmap]
    | some bb =>
      obtain ⟨d, hd, hm⟩ := data_roundtrip h bb
        (fun o ho => hnz (some bb) (List.mem_cons_self _ _) o
          (by simpa [elemTempScalars] using ho))
      refine ⟨d :: ds, some bb :: bs, ?_, ?_, ?_⟩
      · simp [decodeDataList, hd, hds]
      · simp [encodeDataList, hm, hbs]
      · simp [elemTempScalars, hmap]

/-- An observation group none of whose present temperature fragments decodes
to the zero sentinel decodes and re-encodes with the same temperature
fragments. -/
theorem summary_roundtrip {units : Option String}
    (h : resolvedKnown units = true) (ts : TempDataSummary)
    (hnz : ∀ o ∈ ts.tempScalars, ∀ raw, o = some raw →
      Temperature.unmarshalJSONWithContext units raw ≠ .ok ⟨0⟩) :
    ∃ ds ts', DataSummary.unmarshalJSONWithContext units ts = .ok ds ∧
      DataSummary.marshalJSONWithContext units ds = .ok ts' ∧
      ts'.tempScalars = ts.tempScalars := by
  have hnz' : ∀ b ∈ ts.data, ∀ o ∈ elemTempScalars b, ∀ raw, o = some raw →
      Temperature.unmarshalJSONWithContext units raw ≠ .ok ⟨0⟩ := by
    intro b hb o ho
    refine hnz o ?_
    simp only [TempDataSummary.tempScalars, List.mem_flatten]
    exact ⟨elemTempScalars b, List.mem_map_of_mem _ hb, ho⟩
  obtain ⟨ds, bs, hds, hbs, hmap⟩ := dataList_roundtrip h ts.data hnz'
  refine ⟨{ summary := ts.summary, icon := ts.icon, data := ds },
          { summary := ts.summary, icon := ts.icon, data := bs }, ?_, ?_, ?_⟩
  · simp [DataSummary.unmarshalJSONWithContext, hds]
  · simp [DataSummary.marshalJSONWithContext, hbs]
  · simp [TempDataSummary.tempScalars, hmap]

/-- Round trip for one optional group slot of the root document. -/
theorem slot_roundtrip {units : Option String}
    (h : resolvedKnown units = true) (s : Option TempDataSummary)
    (hnz : ∀ o ∈ slotTempScalars s, ∀ raw, o = some raw →
      Temperature.unmarshalJSONWithContext units raw ≠ .ok ⟨0⟩) :
    ∃ ds ts', ((match s with
        | none => .ok DataSummary.zero
        | some ts => DataSummary.unmarshalJSONWithContext units ts) :
        Except String DataSummary) = .ok ds ∧
      DataSummary.marshalJSONWithContext units ds = .ok ts' ∧
      ts'.tempScalars = slotTempScalars s := by
  cases s with
  | none =>
    refine ⟨DataSummary.zero, TempDataSummary.zero, rfl,
      marshal_zero_summary units, ?_⟩
    simp [TempDataSummary.tempScalars, TempDataSummary.zero, slotTempScalars]
  | some ts =>
    obtain ⟨ds, ts', h1, h2, h3⟩ := summary_roundtrip h ts
      (by simpa [slotTempScalars] using hnz)
    exact ⟨ds, ts', h1, h2, by simpa [slotTempScalars] using h3⟩

/-- Round trip for the current-observation slot of the root document. -/
theorem currently_roundtrip {units : Option String}
    (h : resolvedKnown units = true) (c : Option TempData)
    (hnz : ∀ o ∈ elemTempScalars c, ∀ raw, o = some raw →
      Temperature.unmarshalJSONWithContext units raw ≠ .ok ⟨0⟩) :
    ∃ d td', ((match c with
        | none => .ok Data.zero
        | some b => Data.unmarshalJSONWithContext units b) :
        Except String Data) = .ok d ∧
      Data.marshalJSONWithContext units d = .ok td' ∧
      td'.tempRawScalars = elemTempScalars c := by
  cases c with
  | none =>
    refine ⟨Data.zero, TempData.zero, rfl, marshal_zero_data units, ?_⟩
    simp [TempData.tempRawScalars, TempData.zero, elemTempScalars]
  | some b =>
    obtain ⟨d, hd, hm⟩ := data_roundtrip h b
      (by simpa [elemTempScalars] using hnz)
    exact ⟨d, b, hd, hm, by simp [elemTempScalars]⟩

theorem elemTempScalars_some (td : TempData) :
    elemTempScalars (some td) = td.tempRawScalars := rfl

theorem slotTempScalars_some (ts : TempDataSummary) :
    slotTempScalars (some ts) = ts.tempScalars := rfl

/-- The root-derived unit context is always one of the codec's known units. -/
theorem unmarshalUnitsContext_known (s : String) :
    resolvedKnown (some (unmarshalUnitsContext s)) = true := by
  unfold unmarshalUnitsContext
  split <;> rfl

/-- The decode-side and encode-side root switches are the same function. -/
theorem marshal_units_eq (s : String) :
    marshalUnitsContext s = unmarshalUnitsContext s := rfl

/-- Claim C1 as amended: decoding a document and re-encoding it under the
same unit-system selector stored in flags.units succeeds and reproduces the
document's temperature fragments exactly — every present scalar comes back
with the same value — provided no present scalar decodes to the zero-Kelvin
absence sentinel (such a scalar would be dropped on re-encode). -/
theorem C1_roundtrip (tr : TempResponse)
    (hnz : ∀ o ∈ docTempScalars tr, ∀ raw, o = some raw →
      Temperature.unmarshalJSONWithContext
        (some (unmarshalUnitsContext tr.flags.units)) raw ≠ .ok ⟨0⟩) :
    ∃ r tr', Response.unmarshalJSON tr = .ok r ∧
      Response.marshalJSON r = .ok tr' ∧
      tr'.flags = tr.flags ∧
      docTempScalars tr' = docTempScalars tr := by
  have h : resolvedKnown (some (unmarshalUnitsContext tr.flags.units)) = true :=
    unmarshalUnitsContext_known _
  have hnzc : ∀ o ∈ elemTempScalars tr.currently, ∀ raw, o = some raw →
      Temperature.unmarshalJSONWithContext
        (some (unmarshalUnitsContext tr.flags.units)) raw ≠ .ok ⟨0⟩ := by
    intro o ho
    refine hnz o ?_
    simp only [docTempScalars, List.mem_append]
    exact Or.inl (Or.inl (Or.inl ho))
  have hnzm : ∀ o ∈ slotTempScalars tr.minutely, ∀ raw, o = some raw →
      Temperature.unmarshalJSONWithContext
        (some (unmarshalUnitsContext tr.flags.units)) raw ≠ .ok ⟨0⟩ := by
    intro o ho
    refine hnz o ?_
    simp only [docTempScalars, List.mem_append]
    exact Or.inl (Or.inl (Or.inr ho))
  have hnzh : ∀ o ∈ slotTempScalars tr.hourly, ∀ raw, o = some raw →
      Temperature.unmarshalJSONWithContext
        (some (unmarshalUnitsContext tr.flags.units)) raw ≠ .ok ⟨0⟩ := by
    intro o ho
    refine hnz o ?_
    simp only [docTempScalars, List.mem_append]
    exact Or.inl (Or.inr ho)
  have hnzd : ∀ o ∈ slotTempScalars tr.daily, ∀ raw, o = some raw →
      Temperature.unmarshalJSONWithContext
        (some (unmarshalUnitsContext tr.flags.units)) raw ≠ .ok ⟨0⟩ := by
    intro o ho
    refine hnz o ?_
    simp only [docTempScalars, List.mem_append]
    exact Or.inr ho
  obtain ⟨dc, tdc, hdc, hmc, hsc⟩ := currently_roundtrip h tr.currently hnzc
  obtain ⟨dm, tsm, hdm, hmm, hsm⟩ := slot_roundtrip h tr.minutely hnzm
  obtain ⟨dh, tsh, hdh, hmh, hsh⟩ := slot_roundtrip h tr.hourly hnzh
  obtain ⟨dd, tsd, hdd, hmd, hsd⟩ := slot_roundtrip h tr.daily hnzd
  refine ⟨{ latitude := tr.latitude, longitude := tr.longitude
            timezone := tr.timezone, currently := dc, minutely := dm
            hourly := dh, daily := dd, flags := tr.flags
            offset := tr.offset },
          { latitude := tr.latitude, longitude := tr.longitude
            timezone := tr.timezone, currently := some tdc
            minutely := some tsm, hourly := some tsh, daily := some tsd
            flags := tr.flags, offset := tr.offset }, ?_, ?_, rfl, ?_⟩
  · simp [Response.unmarshalJSON, hdc, hdm, hdh, hdd]
  · simp [Response.marshalJSON, marshal_units_eq, hmc, hmm, hmh, hmd]
  · simp only [docTempScalars, elemTempScalars_some, slotTempScalars_some,
      hsc, hsm, hsh, hsd]

/-- A document in the "us" profile with temperature fragments at several
nesting depths, including a null array element. -/
def usDoc : TempResponse where
  latitude := 1
  longitude := 2
  timezone := "z"
  currently := some { TempData.zero with temperature := some 72 }
  minutely := none
  hourly := some { summary := "h", icon := "hi"
                   data := [none, some { TempData.zero with dewPoint := some 50 }] }
  daily := none
  flags := { sources := [], nearestStation := 0, units := "us" }
  offset := 3

/-- Concrete instance of amended C1 on usDoc. -/
theorem C1_roundtrip_witness :
    ∃ r tr', Response.unmarshalJSON usDoc = .ok r ∧
      Response.marshalJSON r = .ok tr' ∧
      tr'.flags = usDoc.flags ∧
      docTempScalars tr' = docTempScalars usDoc := by
  refine C1_roundtrip usDoc ?_
  intro o ho raw hraw
  subst hraw
  simp [docTempScalars, usDoc, elemTempScalars, slotTempScalars,
    TempDataSummary.tempScalars, TempData.tempRawScalars, TempData.zero] at ho
  rcases ho with rfl | rfl <;>
    simp [usDoc, unmarshalUnitsContext, Temperature.unmarshalJSONWithContext,
      resolveUnit, FromFahrenheit, Temperature.mk.injEq] <;>
    norm_num

/-- A document whose current temperature is the celsius reading of absolute
zero: its canonical value is the zero sentinel. -/
def sentinelDoc : TempResponse where
  latitude := 0
  longitude := 0
  timezone := ""
  currently := some { TempData.zero with temperature := some (-273.15) }
  minutely := none
  hourly := none
  daily := none
  flags := { sources := [], nearestStation := 0, units := "ca" }
  offset := 0

/-- Counterexample to claim C1 as stated: under the fixed selector "ca" the
scalar -273.15 decodes to the zero sentinel, and the re-encoded document
omits it entirely — the emitted current observation carries no temperature
fragment, so the scalar is not reproduced. -/
theorem C1_counterexample :
    sentinelDoc.currently =
      some { TempData.zero with temperature := some (-273.15) } ∧
    Response.unmarshalJSON sentinelDoc =
      .ok { latitude := 0, longitude := 0, timezone := ""
            currently := Data.zero, minutely := DataSummary.zero
            hourly := DataSummary.zero, daily := DataSummary.zero
            flags := sentinelDoc.flags, offset := 0 } ∧
    Response.marshalJSON
      { latitude := 0, longitude := 0, timezone := ""
        currently := Data.zero, minutely := DataSummary.zero
        hourly := DataSummary.zero, daily := DataSummary.zero
        flags := sentinelDoc.flags, offset := 0 } =
      .ok { sentinelDoc with
            currently := some TempData.zero
            minutely := some TempDataSummary.zero
            hourly := some TempDataSummary.zero
            daily := some TempDataSummary.zero } ∧
    TempData.zero.temperature = none := by
  refine ⟨rfl, ?_, ?_, rfl⟩
  · have hz : FromCelsuis (-273.15) = (⟨0⟩ : Temperature) := by
      rw [FromCelsuis, Temperature.mk.injEq]
      norm_num
    simp [Response.unmarshalJSON, sentinelDoc, unmarshalUnitsContext,
      Data.unmarshalJSONWithContext, decodeTempField, TempData.zero,
      Temperature.unmarshalJSONWithContext, resolveUnit, hz, Data.zero]
  · simp [Response.marshalJSON, sentinelDoc, marshal_zero_data,
      marshal_zero_summary]

/-! ### C3 (amended, per slot): totality helpers and the general statement -/

/-- Under a known unit token a whole observation record encodes. -/
theorem dataMarshal_ok {units : Option String}
    (h : resolvedKnown units = true) (d : Data) :
    ∃ td, Data.marshalJSONWithContext units d = .ok td := by
  obtain ⟨o1, h1, -⟩ := marshalTempField_spec h d.temperature
  obtain ⟨o2, h2, -⟩ := marshalTempField_spec h d.apparentTemperature
  obtain ⟨o3, h3, -⟩ := marshalTempField_spec h d.dewPoint
  obtain ⟨o4, h4, -⟩ := marshalTempField_spec h d.temperatureHigh
  obtain ⟨o5, h5, -⟩ := marshalTempField_spec h d.temperatureLow
  refine ⟨{ time := d.time
            summary := d.summary
            icon := d.icon
            nearestStormDistance := d.nearestStormDistance
            precipIntensity := d.precipIntensity
            precipProbability := d.precipProbability
            precipType := d.precipType
            temperature := o1
            apparentTemperature := o2
            temperatureLow := o5
            temperatureHighTime := d.temperatureHighTime
            temperatureHigh := o4
            temperatureLowTime := d.temperatureLowTime
            dewPoint := o3
            humidity := d.humidity
            pressure := d.pressure
            windSpeed := d.windSpeed
            windGust := d.windGust
            windBearing := d.windBearing
            cloudCover := d.cloudCover
            uvIndex := d.uvIndex
            visibility := d.visibility
            ozone := d.ozone }, ?_⟩
  simp [Data.marshalJSONWithContext, h1, h2, h3, h4, h5]

/-- Under a known unit token the encode loop over a record list succeeds. -/
theorem encodeDataList_ok {units : Option String}
    (h : resolvedKnown units = true) (l : List Data) :
    ∃ bs, encodeDataList units l = .ok bs := by
  induction l with
  | nil => exact ⟨[], rfl⟩
  | cons d rest ih =>
    obtain ⟨bs, hbs⟩ := ih
    obtain ⟨td, htd⟩ := dataMarshal_ok h d
    exact ⟨some td :: bs, by simp [encodeDataList, htd, hbs]⟩

/-- Under a known unit token a whole observation group encodes. -/
theorem summaryMarshal_ok {units : Option String}
    (h : resolvedKnown units = true) (ds : DataSummary) :
    ∃ ts, DataSummary.marshalJSONWithContext units ds = .ok ts := by
  obtain ⟨bs, hbs⟩ := encodeDataList_ok h ds.data
  exact ⟨{ summary := ds.summary, icon := ds.icon, data := bs },
    by simp [DataSummary.marshalJSONWithContext, hbs]⟩

/-- Under a known unit token a whole observation group decodes. -/
theorem summaryUnmarshal_ok {units : Option String}
    (h : resolvedKnown units = true) (ts : TempDataSummary) :
    ∃ ds, DataSummary.unmarshalJSONWithContext units ts = .ok ds := by
  obtain ⟨l, hl, -, -⟩ := decodeDataList_ok h ts.data
  exact ⟨{ summary := ts.summary, icon := ts.icon, data := l },
    by simp [DataSummary.unmarshalJSONWithContext, hl]⟩

/-- One optional group slot of the root decode: it always succeeds, and an
absent slot leaves the zero group in place. -/
theorem slotDecode_ok {units : Option String}
    (h : resolvedKnown units = true) (s : Option TempDataSummary) :
    ∃ ds, ((match s with
        | none => .ok DataSummary.zero
        | some ts => DataSummary.unmarshalJSONWithContext units ts) :
        Except String DataSummary) = .ok ds ∧
      (s = none → ds = DataSummary.zero) := by
  cases s with
  | none => exact ⟨DataSummary.zero, rfl, fun _ => rfl⟩
  | some ts =>
    obtain ⟨ds, hds⟩ := summaryUnmarshal_ok h ts
    exact ⟨ds, hds, fun hn => by simp at hn⟩

/-- The current-observation slot of the root decode: it always succeeds, and
an absent slot leaves the zero record in place. -/
theorem currentlyDecode_ok {units : Option String}
    (h : resolvedKnown units = true) (c : Option TempData) :
    ∃ d, ((match c with
        | none => .ok Data.zero
        | some b => Data.unmarshalJSONWithContext units b) :
        Except String Data) = .ok d ∧
      (c = none → d = Data.zero) := by
  cases c with
  | none => exact ⟨Data.zero, rfl, fun _ => rfl⟩
  | some b =>
    obtain ⟨d, hd⟩ := dataUnmarshal_ok h b
    exact ⟨d, hd, fun hn => by simp at hn⟩

/-- Claim C3 as amended: for every document, decoding succeeds and each
payload slot that is absent from the wire decodes to the zero-valued record
or group — the decoded document has no "slot not present" state — and
re-encoding the decoded document always emits all four slots as present
fragments, never omitting an absent one. -/
theorem C3_amended (tr : TempResponse) :
    ∃ r tr', Response.unmarshalJSON tr = .ok r ∧
      (tr.currently = none → r.currently = Data.zero) ∧
      (tr.minutely = none → r.minutely = DataSummary.zero) ∧
      (tr.hourly = none → r.hourly = DataSummary.zero) ∧
      (tr.daily = none → r.daily = DataSummary.zero) ∧
      Response.marshalJSON r = .ok tr' ∧
      tr'.currently.isSome = true ∧ tr'.minutely.isSome = true ∧
      tr'.hourly.isSome = true ∧ tr'.daily.isSome = true := by
  have h : resolvedKnown (some (unmarshalUnitsContext tr.flags.units)) = true :=
    unmarshalUnitsContext_known _
  obtain ⟨dc, hdc, hdc0⟩ := currentlyDecode_ok h tr.currently
  obtain ⟨dm, hdm, hdm0⟩ := slotDecode_ok h tr.minutely
  obtain ⟨dh, hdh, hdh0⟩ := slotDecode_ok h tr.hourly
  obtain ⟨dd, hdd, hdd0⟩ := slotDecode_ok h tr.daily
  obtain ⟨tdc, htc⟩ := dataMarshal_ok h dc
  obtain ⟨tsm, htm⟩ := summaryMarshal_ok h dm
  obtain ⟨tsh, hth⟩ := summaryMarshal_ok h dh
  obtain ⟨tsd, htd⟩ := summaryMarshal_ok h dd
  refine ⟨{ latitude := tr.latitude, longitude := tr.longitude
            timezone := tr.timezone, currently := dc, minutely := dm
            hourly := dh, daily := dd, flags := tr.flags
            offset := tr.offset },
          { latitude := tr.latitude, longitude := tr.longitude
            timezone := tr.timezone, currently := some tdc
            minutely := some tsm, hourly := some tsh, daily := some tsd
            flags := tr.flags, offset := tr.offset },
          ?_, hdc0, hdm0, hdh0, hdd0, ?_, rfl, rfl, rfl, rfl⟩
  · simp [Response.unmarshalJSON, hdc, hdm, hdh, hdd]
  · simp [Response.marshalJSON, marshal_units_eq, htc, htm, hth, htd]

/-- A document with minutely absent while the current observation is
present. -/
def minutelyAbsentDoc : TempResponse where
  latitude := 0
  longitude := 0
  timezone := ""
  currently := some { TempData.zero with temperature := some 22 }
  minutely := none
  hourly := none
  daily := none
  flags := { sources := [], nearestStation := 0, units := "ca" }
  offset := 0

/-- Concrete instance of amended C3: with minutely absent (and currently
present), the decoded minutely is the zero group and the re-encoded document
emits the minutely slot again. -/
theorem C3_amended_witness :
    ∃ r tr', Response.unmarshalJSON minutelyAbsentDoc = .ok r ∧
      r.minutely = DataSummary.zero ∧
      Response.marshalJSON r = .ok tr' ∧
      tr'.minutely.isSome = true := by
  obtain ⟨r, tr', h1, -, hm, -, -, h2, -, hsm, -, -⟩ :=
    C3_amended minutelyAbsentDoc
  exact ⟨r, tr', h1, hm rfl, h2, hsm⟩

end Darksky
